import Mathlib

/-!
Shallow embedding of `scripts/score_applications.py` (ASA v1.1).

The script reads three append-only SQLite tables (`applications`,
`outreach_events`, `status_history`) and derives per-application metrics,
channel/portfolio aggregates, and a four-way application state.

Modelling conventions:
* A table is a `List` of rows; the whole store is a `Store` value.
* ISO-8601 timestamp strings are modelled as `Int` seconds since the epoch
  (the script parses them with `datetime.fromisoformat` and only ever
  subtracts them, taking `.days` of the difference).
* `datetime.now(timezone.utc)` is an explicit parameter `now : Int`
  (seconds): every function that reads the wall clock takes it.
* Python's `timedelta.days` is floor division of the seconds difference by
  86400, i.e. `Int.fdiv _ 86400`.
* Python floats in the portfolio rates are modelled as `ℚ`.
* A Python value that can be `None` becomes an `Option`; a computation that
  can raise (the `None > int` `TypeError` in `application_state`) returns
  `Option` with `none` for the raised error.
-/

/-- Row of the `applications` table: `add_application` inserts company, role
and optional link; `application_id` and `created_at` come from the schema. -/
structure Application where
  application_id : Nat
  company : String
  role : String
  application_link : Option String
  created_at : Int
deriving Repr, DecidableEq

/-- Row of the `outreach_events` table, inserted by `add_outreach`. -/
structure OutreachEvent where
  application_id : Nat
  channel : String
  outreach_type : String
  timestamp : Int
deriving Repr, DecidableEq

/-- Row of the `status_history` table. -/
structure StatusHistoryEntry where
  application_id : Nat
  status : String
  timestamp : Int
deriving Repr, DecidableEq

/-- The relational store backing `asa.db`: the three tables the script reads. -/
structure Store where
  applications : List Application
  outreach_events : List OutreachEvent
  status_history : List StatusHistoryEntry
deriving Repr, DecidableEq

/-- Threshold `IDLE_DAYS_THRESHOLD = 7` (compared against day counts). -/
def IDLE_DAYS_THRESHOLD : Int := 7

/-- Threshold `MIN_CHANNEL_SAMPLE_SIZE = 5`. -/
def MIN_CHANNEL_SAMPLE_SIZE : Nat := 5

/-- Threshold `HIGH_IDLE_RATE_THRESHOLD = 0.30`. -/
def HIGH_IDLE_RATE_THRESHOLD : ℚ := 3 / 10

/-- Threshold `LOW_FOLLOW_UP_RATE_THRESHOLD = 0.50`. -/
def LOW_FOLLOW_UP_RATE_THRESHOLD : ℚ := 1 / 2

/-- SQL `MAX(x)` over a result set: `NULL` (here `none`) on the empty set. -/
def listMax : List Int → Option Int
  | [] => none
  | x :: xs =>
    match listMax xs with
    | none => some x
    | some m => some (max x m)

/-- SQL `MIN(x)` over a result set: `NULL` (here `none`) on the empty set. -/
def listMin : List Int → Option Int
  | [] => none
  | x :: xs =>
    match listMin xs with
    | none => some x
    | some m => some (min x m)

/-- The `UNION ALL` subquery inside `days_since_last_action`: all timestamps
of status-history rows, outreach events, and the application's `created_at`,
restricted to one `application_id`. -/
def action_timestamps (s : Store) (appId : Nat) : List Int :=
  ((s.status_history.filter (fun e => e.application_id == appId)).map
      (fun e => e.timestamp))
    ++ ((s.outreach_events.filter (fun e => e.application_id == appId)).map
      (fun e => e.timestamp))
    ++ ((s.applications.filter (fun a => a.application_id == appId)).map
      (fun a => a.created_at))

/-- `days_since_last_action(application_id)`: days between `now` and the
`MAX` timestamp among status history, outreach events, and `created_at`;
`None` when the `MAX` is SQL `NULL` (no rows at all for this id). -/
def days_since_last_action (s : Store) (now : Int) (appId : Nat) : Option Int :=
  match listMax (action_timestamps s appId) with
  | none => none
  | some t => some ((now - t).fdiv 86400)

/-- `total_outreach_count(application_id)`: `COUNT(*)` of outreach events. -/
def total_outreach_count (s : Store) (appId : Nat) : Nat :=
  (s.outreach_events.filter (fun e => e.application_id == appId)).length

/-- `follow_up_count(application_id)`: `COUNT(*)` of outreach events with
`outreach_type = 'follow_up'`. -/
def follow_up_count (s : Store) (appId : Nat) : Nat :=
  (s.outreach_events.filter
    (fun e => e.application_id == appId && e.outreach_type == "follow_up")).length

/-- `has_follow_up(application_id)`. -/
def has_follow_up (s : Store) (appId : Nat) : Bool :=
  decide (follow_up_count s appId ≥ 1)

/-- `status_change_count(application_id)`: `COUNT(*)` of status history rows. -/
def status_change_count (s : Store) (appId : Nat) : Nat :=
  (s.status_history.filter (fun e => e.application_id == appId)).length

/-- `total_action_count(application_id)`. -/
def total_action_count (s : Store) (appId : Nat) : Nat :=
  total_outreach_count s appId + status_change_count s appId

/-- `effort_score_raw(application_id)`: identity placeholder. -/
def effort_score_raw (s : Store) (appId : Nat) : Nat :=
  total_action_count s appId

/-- `time_to_first_outreach(application_id)`: days between `created_at` and
the earliest outreach event (via a join with `applications`); `None` when the
application has no outreach events. -/
def time_to_first_outreach (s : Store) (appId : Nat) : Option Int :=
  match listMin ((s.outreach_events.filter
          (fun e => e.application_id == appId)).map (fun e => e.timestamp)),
      (s.applications.filter (fun a => a.application_id == appId)).head? with
  | some t, some a => some ((t - a.created_at).fdiv 86400)
  | _, _ => none

/-- The `ORDER BY timestamp DESC LIMIT 1` pick: an entry of maximal
timestamp (the first such entry, when several timestamps tie). -/
def latestEntry : List StatusHistoryEntry → Option StatusHistoryEntry
  | [] => none
  | e :: rest =>
    match latestEntry rest with
    | none => some e
    | some m => if m.timestamp > e.timestamp then some m else some e

/-- `current_status(application_id)`: status of the most recent status
history row, `"open"` when none exists. -/
def current_status (s : Store) (appId : Nat) : String :=
  match latestEntry (s.status_history.filter (fun e => e.application_id == appId)) with
  | none => "open"
  | some e => e.status

/-- One row of `application_metrics_view`. -/
structure MetricsRow where
  application_id : Nat
  current_status : String
  days_since_last_action : Option Int
  total_outreach_count : Nat
  follow_up_count : Nat
  has_follow_up : Bool
  total_action_count : Nat
  effort_score_raw : Nat
  is_idle_application : Bool
  has_zero_outreach : Bool
  has_no_follow_up : Bool
deriving Repr, DecidableEq

/-- Body of the `for app_id in app_ids` loop of `application_metrics_view`. -/
def application_metrics_row (s : Store) (now : Int) (appId : Nat) : MetricsRow :=
  let total_outreach := total_outreach_count s appId
  let follow_ups := follow_up_count s appId
  let days_idle := days_since_last_action s now appId
  { application_id := appId
    current_status := current_status s appId
    days_since_last_action := days_idle
    total_outreach_count := total_outreach
    follow_up_count := follow_ups
    has_follow_up := decide (follow_ups ≥ 1)
    total_action_count := total_action_count s appId
    effort_score_raw := effort_score_raw s appId
    is_idle_application :=
      match days_idle with
      | none => false
      | some d => decide (d > IDLE_DAYS_THRESHOLD)
    has_zero_outreach := decide (total_outreach = 0)
    has_no_follow_up := decide (total_outreach ≥ 1 ∧ follow_ups = 0) }

/-- `application_metrics_view()`: one metrics row per application id in the
`applications` table. -/
def application_metrics_view (s : Store) (now : Int) : List MetricsRow :=
  (s.applications.map (fun a => a.application_id)).map (application_metrics_row s now)

/-- One row of `channel_metrics_view`. -/
structure ChannelRow where
  channel_name : String
  outreach_count_by_channel : Nat
  application_coverage_by_channel : Nat
  response_count_by_channel : Nat
  response_rate_by_channel : Option ℚ
  median_response_time_by_channel : Option ℚ
  is_low_sample_channel : Bool
deriving Repr, DecidableEq

/-- `channel_metrics_view()`: one row per `DISTINCT channel` of
`outreach_events`; response fields are v1.1 placeholders. -/
def channel_metrics_view (s : Store) : List ChannelRow :=
  ((s.outreach_events.map (fun e => e.channel)).eraseDups).map (fun ch =>
    let outreach_count := (s.outreach_events.filter (fun e => e.channel == ch)).length
    let app_coverage :=
      (((s.outreach_events.filter (fun e => e.channel == ch)).map
        (fun e => e.application_id)).eraseDups).length
    { channel_name := ch
      outreach_count_by_channel := outreach_count
      application_coverage_by_channel := app_coverage
      response_count_by_channel := 0
      response_rate_by_channel := none
      median_response_time_by_channel := none
      is_low_sample_channel := decide (outreach_count < MIN_CHANNEL_SAMPLE_SIZE) })

/-- The single row returned by `portfolio_metrics_view`. -/
structure PortfolioRow where
  applications_total : Nat
  applications_per_week : Option ℚ
  follow_up_rate : Option ℚ
  zero_outreach_rate : Option ℚ
  idle_application_rate : Option ℚ
  high_idle_portfolio : Option Bool
  low_follow_up_portfolio : Option Bool
deriving Repr, DecidableEq

/-- The `weeks_active` computation of `portfolio_metrics_view`:
`days = max(1, (end - start).days)` then `max(1, (days + 6) // 7)`. -/
def weeks_active (mn mx : Int) : Int :=
  let days := max 1 ((mx - mn).fdiv 86400)
  max 1 ((days + 6).fdiv 7)

/-- `portfolio_metrics_view()`: single summary row over all applications;
all-null row when there are zero applications. -/
def portfolio_metrics_view (s : Store) (now : Int) : PortfolioRow :=
  let app_rows := application_metrics_view s now
  let applications_total := app_rows.length
  if applications_total = 0 then
    { applications_total := 0
      applications_per_week := none
      follow_up_rate := none
      zero_outreach_rate := none
      idle_application_rate := none
      high_idle_portfolio := none
      low_follow_up_portfolio := none }
  else
    let apps_with_follow_up := app_rows.countP (fun r => r.has_follow_up)
    let follow_up_rate : ℚ := (apps_with_follow_up : ℚ) / (applications_total : ℚ)
    let apps_zero_outreach := app_rows.countP (fun r => r.total_outreach_count == 0)
    let zero_outreach_rate : ℚ := (apps_zero_outreach : ℚ) / (applications_total : ℚ)
    let apps_idle := app_rows.countP (fun r => r.is_idle_application)
    let idle_application_rate : ℚ := (apps_idle : ℚ) / (applications_total : ℚ)
    let high_idle_portfolio := decide (idle_application_rate > HIGH_IDLE_RATE_THRESHOLD)
    let low_follow_up_portfolio := decide (follow_up_rate < LOW_FOLLOW_UP_RATE_THRESHOLD)
    let created := s.applications.map (fun a => a.created_at)
    let applications_per_week : Option ℚ :=
      match listMin created, listMax created with
      | some mn, some mx =>
        some ((applications_total : ℚ) / (weeks_active mn mx : ℚ))
      | _, _ => none
    { applications_total := applications_total
      applications_per_week := applications_per_week
      follow_up_rate := some follow_up_rate
      zero_outreach_rate := some zero_outreach_rate
      idle_application_rate := some idle_application_rate
      high_idle_portfolio := some high_idle_portfolio
      low_follow_up_portfolio := some low_follow_up_portfolio }

/-- `application_state(metrics_row)`: the four-way classifier. Python
evaluates `metrics_row["days_since_last_action"] > IDLE_DAYS_THRESHOLD`,
which raises `TypeError` when the value is `None`; that raised error is
modelled as the result `none`. -/
def application_state (row : MetricsRow) : Option String :=
  if row.current_status = "closed" then some "closed"
  else if row.total_outreach_count = 0 then some "unengaged"
  else
    match row.days_since_last_action with
    | none => none
    | some d => if d > IDLE_DAYS_THRESHOLD then some "engaged_idle" else some "active"

/-- `application_state_view()`: every metrics row paired with its state. -/
def application_state_view (s : Store) (now : Int) : List (MetricsRow × Option String) :=
  (application_metrics_view s now).map (fun r => (r, application_state r))

/-!
Helper lemmas about the SQL aggregate models.
-/

theorem listMax_eq_none_iff {l : List Int} : listMax l = none ↔ l = [] := by
  cases l with
  | nil => simp [listMax]
  | cons x xs =>
    cases h : listMax xs <;> simp [listMax, h]

theorem listMin_eq_none_iff {l : List Int} : listMin l = none ↔ l = [] := by
  cases l with
  | nil => simp [listMin]
  | cons x xs =>
    cases h : listMin xs <;> simp [listMin, h]

theorem le_listMax {l : List Int} {m : Int} (h : listMax l = some m) :
    ∀ x ∈ l, x ≤ m := by
  induction l generalizing m with
  | nil => simp
  | cons y ys ih =>
    intro x hx
    rcases List.mem_cons.mp hx with rfl | hx'
    · cases hys : listMax ys with
      | none => simp [listMax, hys] at h; omega
      | some m' => simp [listMax, hys] at h; subst h; exact le_max_left _ _
    · cases hys : listMax ys with
      | none =>
        rw [listMax_eq_none_iff] at hys
        subst hys; simp at hx'
      | some m' =>
        simp [listMax, hys] at h; subst h
        exact le_trans (ih hys x hx') (le_max_right _ _)

theorem listMax_mem {l : List Int} {m : Int} (h : listMax l = some m) : m ∈ l := by
  induction l generalizing m with
  | nil => simp [listMax] at h
  | cons y ys ih =>
    cases hys : listMax ys with
    | none =>
      simp [listMax, hys] at h
      subst h; exact List.mem_cons_self _ _
    | some m' =>
      simp [listMax, hys] at h
      subst h
      rcases max_choice y m' with hc | hc <;> rw [hc]
      · exact List.mem_cons_self _ _
      · exact List.mem_cons_of_mem _ (ih hys)

theorem listMax_isSome_of_mem {l : List Int} {x : Int} (hx : x ∈ l) :
    ∃ m, listMax l = some m := by
  cases h : listMax l with
  | none =>
    rw [listMax_eq_none_iff] at h
    subst h; simp at hx
  | some m => exact ⟨m, rfl⟩

theorem latestEntry_eq_none_iff {l : List StatusHistoryEntry} :
    latestEntry l = none ↔ l = [] := by
  cases l with
  | nil => simp [latestEntry]
  | cons e es =>
    cases h : latestEntry es with
    | none => simp [latestEntry, h]
    | some m => simp [latestEntry, h]; intro h'; split at h' <;> simp_all

theorem latestEntry_mem {l : List StatusHistoryEntry} {m : StatusHistoryEntry}
    (h : latestEntry l = some m) : m ∈ l := by
  induction l generalizing m with
  | nil => simp [latestEntry] at h
  | cons e es ih =>
    cases hes : latestEntry es with
    | none =>
      simp [latestEntry, hes] at h
      subst h; exact List.mem_cons_self _ _
    | some m' =>
      simp [latestEntry, hes] at h
      split at h
      · cases h; exact List.mem_cons_of_mem _ (ih hes)
      · cases h; exact List.mem_cons_self _ _

theorem le_latestEntry {l : List StatusHistoryEntry} {m : StatusHistoryEntry}
    (h : latestEntry l = some m) : ∀ e ∈ l, e.timestamp ≤ m.timestamp := by
  induction l generalizing m with
  | nil => simp
  | cons e es ih =>
    intro x hx
    rcases List.mem_cons.mp hx with rfl | hx'
    · cases hes : latestEntry es with
      | none => simp [latestEntry, hes] at h; subst h; exact le_refl _
      | some m' =>
        simp [latestEntry, hes] at h
        split at h <;> cases h
        · omega
        · exact le_refl _
    · cases hes : latestEntry es with
      | none =>
        rw [latestEntry_eq_none_iff] at hes
        subst hes; simp at hx'
      | some m' =>
        simp [latestEntry, hes] at h
        split at h <;> cases h
        · exact ih hes x hx'
        · exact le_trans (ih hes x hx') (by omega)

theorem created_at_mem_action_timestamps {s : Store} {a : Application}
    (ha : a ∈ s.applications) :
    a.created_at ∈ action_timestamps s a.application_id := by
  simp only [action_timestamps, List.mem_append, List.mem_map, List.mem_filter]
  refine Or.inr ⟨a, ⟨ha, by simp⟩, rfl⟩

theorem days_since_last_action_eq_some (s : Store) (now : Int) {a : Application}
    (ha : a ∈ s.applications) :
    ∃ d, days_since_last_action s now a.application_id = some d := by
  obtain ⟨m, hm⟩ := listMax_isSome_of_mem (created_at_mem_action_timestamps ha)
  exact ⟨(now - m).fdiv 86400, by simp [days_since_last_action, hm]⟩

theorem mem_action_timestamps_le {s : Store} {now : Int} {appId : Nat}
    (hsh : ∀ e ∈ s.status_history, e.timestamp ≤ now)
    (hoe : ∀ e ∈ s.outreach_events, e.timestamp ≤ now)
    (hap : ∀ b ∈ s.applications, b.created_at ≤ now) :
    ∀ x ∈ action_timestamps s appId, x ≤ now := by
  intro x hx
  simp only [action_timestamps, List.mem_append, List.mem_map, List.mem_filter] at hx
  rcases hx with (⟨e, ⟨he, -⟩, rfl⟩ | ⟨e, ⟨he, -⟩, rfl⟩) | ⟨b, ⟨hb, -⟩, rfl⟩
  · exact hsh e he
  · exact hoe e he
  · exact hap b hb

/-!
Claim theorems.
-/

/-- C1 (counterexample): the metrics views are not functions of the store
contents alone. With one application created at epoch time 0 and no events,
`application_metrics_view` evaluated when `datetime.now()` is the creation
instant differs from the same view on the same store evaluated eight days
later (`days_since_last_action` moves from 0 to 8 and
`is_idle_application` flips to `true`), although no write happened. -/
theorem C1_counterexample :
    application_metrics_view ⟨[⟨1, "OpenAI", "Research Intern", none, 0⟩], [], []⟩ 0 ≠
      application_metrics_view ⟨[⟨1, "OpenAI", "Research Intern", none, 0⟩], [], []⟩ 691200 := by
  decide

/-- C1 (amended): each metrics view is a deterministic function of the store
contents together with the wall-clock instant `now` at which it is evaluated
(`channel_metrics_view` of the store alone): with both fixed — no intervening
writes and no clock movement — calling any view twice yields identical
results. -/
theorem C1_views_deterministic (s : Store) (now : Int) :
    application_metrics_view s now = application_metrics_view s now ∧
      channel_metrics_view s = channel_metrics_view s ∧
      portfolio_metrics_view s now = portfolio_metrics_view s now ∧
      application_state_view s now = application_state_view s now :=
  ⟨rfl, rfl, rfl, rfl⟩

/-- C2: for an application present in the `applications` table (its
`created_at` is among the `UNION ALL` timestamps) and a store whose
timestamps do not lie in the future, `days_since_last_action` returns a
value and that value is ≥ 0; moreover it returns the absent value only for
ids that appear in no `applications` row. -/
theorem C2_days_since_nonnull_nonneg (s : Store) (now : Int) (a : Application)
    (ha : a ∈ s.applications)
    (hsh : ∀ e ∈ s.status_history, e.timestamp ≤ now)
    (hoe : ∀ e ∈ s.outreach_events, e.timestamp ≤ now)
    (hap : ∀ b ∈ s.applications, b.created_at ≤ now) :
    (∃ d, days_since_last_action s now a.application_id = some d ∧ 0 ≤ d) ∧
      ∀ i, days_since_last_action s now i = none →
        ∀ b ∈ s.applications, b.application_id ≠ i := by
  constructor
  · obtain ⟨m, hm⟩ := listMax_isSome_of_mem (created_at_mem_action_timestamps ha)
    refine ⟨(now - m).fdiv 86400, by simp [days_since_last_action, hm], ?_⟩
    have hmle : m ≤ now :=
      mem_action_timestamps_le hsh hoe hap m (listMax_mem hm)
    exact Int.fdiv_nonneg (by omega) (by norm_num)
  · intro i hnone b hb hbi
    have hmem : b.created_at ∈ action_timestamps s i := by
      subst hbi
      exact created_at_mem_action_timestamps hb
    obtain ⟨m, hm⟩ := listMax_isSome_of_mem hmem
    simp [days_since_last_action, hm] at hnone

/-- C2 witness: a store with one application created at time 0, one outreach
event and one status change, evaluated one day later. -/
theorem C2_witness :
    (∃ d, days_since_last_action
        ⟨[⟨1, "OpenAI", "Research Intern", none, 0⟩],
         [⟨1, "LinkedIn", "initial", 3600⟩],
         [⟨1, "interview", 7200⟩]⟩ 86400
        (Application.mk 1 "OpenAI" "Research Intern" none 0).application_id =
          some d ∧ 0 ≤ d) ∧
      ∀ i, days_since_last_action
          ⟨[⟨1, "OpenAI", "Research Intern", none, 0⟩],
           [⟨1, "LinkedIn", "initial", 3600⟩],
           [⟨1, "interview", 7200⟩]⟩ 86400 i = none →
        ∀ b ∈ [Application.mk 1 "OpenAI" "Research Intern" none 0],
          b.application_id ≠ i :=
  C2_days_since_nonnull_nonneg _ 86400 _ (by decide) (by decide) (by decide) (by decide)

/-- C4: `application_state` checks its cases in fixed priority order with
first match winning: `closed` beats everything (in particular the idle
check, whatever `days_since_last_action` holds), `unengaged` beats the idle
check, and `active` is the default. -/
theorem C4_priority_order (r : MetricsRow) :
    (r.current_status = "closed" → application_state r = some "closed") ∧
      (r.current_status ≠ "closed" → r.total_outreach_count = 0 →
        application_state r = some "unengaged") ∧
      (∀ d, r.current_status ≠ "closed" → r.total_outreach_count ≠ 0 →
        r.days_since_last_action = some d → IDLE_DAYS_THRESHOLD < d →
        application_state r = some "engaged_idle") ∧
      (∀ d, r.current_status ≠ "closed" → r.total_outreach_count ≠ 0 →
        r.days_since_last_action = some d → d ≤ IDLE_DAYS_THRESHOLD →
        application_state r = some "active") := by
  refine ⟨fun h1 => by simp [application_state, h1],
    fun h1 h2 => by simp [application_state, h1, h2],
    fun d h1 h2 hd hgt => by simp [application_state, h1, h2, hd, hgt],
    fun d h1 h2 hd hle => by simp [application_state, h1, h2, hd, not_lt.mpr hle]⟩

/-- C4 witness: the four priority cases at concrete rows — a closed idle row
(with an absent days value, even), a zero-outreach row, an idle row, and a
fresh row. -/
theorem C4_witness :
    application_state ⟨1, "closed", none, 3, 1, true, 4, 4, false, false, false⟩ =
        some "closed" ∧
      application_state ⟨2, "open", some 2, 0, 0, false, 0, 0, false, true, false⟩ =
        some "unengaged" ∧
      application_state ⟨3, "open", some 9, 2, 0, false, 2, 2, true, false, true⟩ =
        some "engaged_idle" ∧
      application_state ⟨4, "open", some 3, 2, 1, true, 3, 3, false, false, false⟩ =
        some "active" :=
  ⟨(C4_priority_order _).1 rfl,
    (C4_priority_order _).2.1 (by decide) rfl,
    (C4_priority_order _).2.2.1 9 (by decide) (by decide) rfl (by decide),
    (C4_priority_order _).2.2.2 3 (by decide) (by decide) rfl (by decide)⟩

/-- C9: `current_status` returns `"open"` when the application has no
status-history rows, and otherwise the status of a history row of maximal
timestamp for that application. -/
theorem C9_current_status (s : Store) (appId : Nat) :
    (s.status_history.filter (fun e => e.application_id == appId) = [] →
      current_status s appId = "open") ∧
      (s.status_history.filter (fun e => e.application_id == appId) ≠ [] →
        ∃ e ∈ s.status_history.filter (fun e => e.application_id == appId),
          current_status s appId = e.status ∧
            ∀ e' ∈ s.status_history.filter (fun e => e.application_id == appId),
              e'.timestamp ≤ e.timestamp) := by
  constructor
  · intro h
    simp [current_status, h, latestEntry]
  · intro h
    cases hle : latestEntry (s.status_history.filter (fun e => e.application_id == appId)) with
    | none => exact absurd (latestEntry_eq_none_iff.mp hle) h
    | some m =>
      refine ⟨m, latestEntry_mem hle, ?_, le_latestEntry hle⟩
      simp [current_status, hle]

/-- C9 witness: two status rows for application 1 with the later timestamp
carrying `"closed"`, plus an application 2 with no history at all. -/
theorem C9_witness :
    (([⟨1, "interview", 100⟩, ⟨1, "closed", 200⟩, ⟨2, "x", 300⟩]
          : List StatusHistoryEntry).filter (fun e => e.application_id == 1) ≠ [] →
      ∃ e ∈ ([⟨1, "interview", 100⟩, ⟨1, "closed", 200⟩, ⟨2, "x", 300⟩]
          : List StatusHistoryEntry).filter (fun e => e.application_id == 1),
        current_status ⟨[], [], [⟨1, "interview", 100⟩, ⟨1, "closed", 200⟩, ⟨2, "x", 300⟩]⟩ 1 =
            e.status ∧
          ∀ e' ∈ ([⟨1, "interview", 100⟩, ⟨1, "closed", 200⟩, ⟨2, "x", 300⟩]
              : List StatusHistoryEntry).filter (fun e => e.application_id == 1),
            e'.timestamp ≤ e.timestamp) ∧
      current_status ⟨[], [], [⟨1, "interview", 100⟩, ⟨1, "closed", 200⟩, ⟨2, "x", 300⟩]⟩ 7 =
        "open" :=
  ⟨(C9_current_status ⟨[], [], [⟨1, "interview", 100⟩, ⟨1, "closed", 200⟩, ⟨2, "x", 300⟩]⟩ 1).2,
    (C9_current_status ⟨[], [], [⟨1, "interview", 100⟩, ⟨1, "closed", 200⟩, ⟨2, "x", 300⟩]⟩ 7).1
      (by decide)⟩

theorem mem_application_metrics_view {s : Store} {now : Int} {r : MetricsRow}
    (hr : r ∈ application_metrics_view s now) :
    ∃ a ∈ s.applications, r = application_metrics_row s now a.application_id := by
  simp only [application_metrics_view, List.mem_map] at hr
  obtain ⟨i, hi, rfl⟩ := hr
  obtain ⟨a, ha, rfl⟩ := hi
  exact ⟨a, ha, rfl⟩

theorem application_metrics_row_days (s : Store) (now : Int) (appId : Nat) :
    (application_metrics_row s now appId).days_since_last_action =
      days_since_last_action s now appId := rfl

/-- C3 counterexample: on a synthetic metrics row whose
`days_since_last_action` is absent while `current_status` is not
`"closed"` and `total_outreach_count` is nonzero, the classifier reaches
the Python comparison `None > IDLE_DAYS_THRESHOLD` and raises `TypeError`
(modelled as `none`) instead of returning one of the four labels. -/
theorem C3_counterexample :
    application_state ⟨1, "open", none, 1, 0, false, 1, 1, false, false, true⟩ = none := rfl

/-- C3 (amended): `application_state` returns exactly one of the four labels
on every row actually produced by `application_metrics_view` — such rows
always carry a present `days_since_last_action`, because `created_at` of the
application itself feeds the `MAX`. Totality fails only on synthetic rows
with an absent days value, a non-`"closed"` status and nonzero outreach,
where Python raises `TypeError`. -/
theorem C3_state_total_on_view_rows (s : Store) (now : Int) (r : MetricsRow)
    (hr : r ∈ application_metrics_view s now) :
    ∃ l, application_state r = some l ∧
      (l = "closed" ∨ l = "unengaged" ∨ l = "engaged_idle" ∨ l = "active") := by
  obtain ⟨a, ha, rfl⟩ := mem_application_metrics_view hr
  obtain ⟨d, hd⟩ := days_since_last_action_eq_some s now ha
  by_cases h1 : (application_metrics_row s now a.application_id).current_status = "closed"
  · exact ⟨"closed", by simp [application_state, h1], Or.inl rfl⟩
  · by_cases h2 :
        (application_metrics_row s now a.application_id).total_outreach_count = 0
    · exact ⟨"unengaged", by simp [application_state, h1, h2], Or.inr (Or.inl rfl)⟩
    · have hdays :
          (application_metrics_row s now a.application_id).days_since_last_action =
            some d := by
        rw [application_metrics_row_days, hd]
      by_cases h3 : IDLE_DAYS_THRESHOLD < d
      · exact ⟨"engaged_idle", by simp [application_state, h1, h2, hdays, h3],
          Or.inr (Or.inr (Or.inl rfl))⟩
      · exact ⟨"active", by simp [application_state, h1, h2, hdays, h3],
          Or.inr (Or.inr (Or.inr rfl))⟩

/-- C3 witness: the amended totality at a concrete store (one application,
one outreach event, no status history). -/
theorem C3_witness :
    ∃ l, application_state
        (application_metrics_row
          ⟨[⟨1, "OpenAI", "Research Intern", none, 0⟩], [⟨1, "LinkedIn", "initial", 3600⟩], []⟩
          86400 1) = some l ∧
      (l = "closed" ∨ l = "unengaged" ∨ l = "engaged_idle" ∨ l = "active") :=
  C3_state_total_on_view_rows
    ⟨[⟨1, "OpenAI", "Research Intern", none, 0⟩], [⟨1, "LinkedIn", "initial", 3600⟩], []⟩
    86400 _ (by decide)

/-- C5: any metrics-view row with `total_outreach_count = 0` has
`has_zero_outreach = true`, and its state is `unengaged` unless the current
status is `"closed"`, in which case it is `closed`. -/
theorem C5_zero_outreach_unengaged (s : Store) (now : Int) (r : MetricsRow)
    (hr : r ∈ application_metrics_view s now)
    (h0 : r.total_outreach_count = 0) :
    r.has_zero_outreach = true ∧
      application_state r =
        some (if r.current_status = "closed" then "closed" else "unengaged") := by
  constructor
  · obtain ⟨a, ha, rfl⟩ := mem_application_metrics_view hr
    simp only [application_metrics_row] at h0 ⊢
    simp [h0]
  · by_cases h1 : r.current_status = "closed"
    · simp [application_state, h1]
    · simp [application_state, h1, h0]

/-- C5 witness: one application with zero outreach events (state
`unengaged`) evaluated from the store itself. -/
theorem C5_witness :
    (application_metrics_row ⟨[⟨1, "OpenAI", "Research Intern", none, 0⟩], [], []⟩ 0
          1).has_zero_outreach = true ∧
      application_state
          (application_metrics_row ⟨[⟨1, "OpenAI", "Research Intern", none, 0⟩], [], []⟩ 0 1) =
        some (if (application_metrics_row ⟨[⟨1, "OpenAI", "Research Intern", none, 0⟩], [], []⟩
            0 1).current_status = "closed" then "closed" else "unengaged") :=
  C5_zero_outreach_unengaged ⟨[⟨1, "OpenAI", "Research Intern", none, 0⟩], [], []⟩ 0 _
    (by decide) (by decide)

/-- C10: in every metrics-view row the three engagement flags are mutually
exclusive and exhaustive — exactly one of `has_zero_outreach`,
`has_no_follow_up`, `has_follow_up` holds — because `follow_up_count` (a
count over a subset of the same outreach events) never exceeds
`total_outreach_count`. -/
theorem C10_exactly_one_flag (s : Store) (now : Int) (r : MetricsRow)
    (hr : r ∈ application_metrics_view s now) :
    r.follow_up_count ≤ r.total_outreach_count ∧
      ((r.has_zero_outreach = true ∧ r.has_no_follow_up = false ∧
          r.has_follow_up = false) ∨
        (r.has_zero_outreach = false ∧ r.has_no_follow_up = true ∧
          r.has_follow_up = false) ∨
        (r.has_zero_outreach = false ∧ r.has_no_follow_up = false ∧
          r.has_follow_up = true)) := by
  obtain ⟨a, ha, rfl⟩ := mem_application_metrics_view hr
  have hle : follow_up_count s a.application_id ≤ total_outreach_count s a.application_id := by
    unfold follow_up_count total_outreach_count
    rw [← List.countP_eq_length_filter, ← List.countP_eq_length_filter]
    exact List.countP_mono_left (fun e _ hpe => by
      simp only [Bool.and_eq_true] at hpe
      exact hpe.1)
  refine ⟨hle, ?_⟩
  simp only [application_metrics_row]
  by_cases h0 : total_outreach_count s a.application_id = 0
  · have hf : follow_up_count s a.application_id = 0 := by omega
    exact Or.inl (by simp [h0, hf])
  · by_cases hf : follow_up_count s a.application_id = 0
    · exact Or.inr (Or.inl (by simp [h0, hf]; omega))
    · exact Or.inr (Or.inr (by simp [h0, hf]; omega))

/-- C10 witness: a store with one initial and one follow-up outreach event
for its single application. -/
theorem C10_witness :
    (application_metrics_row
          ⟨[⟨1, "OpenAI", "Research Intern", none, 0⟩],
           [⟨1, "LinkedIn", "initial", 10⟩, ⟨1, "Email", "follow_up", 20⟩], []⟩ 0
          1).follow_up_count ≤
        (application_metrics_row
          ⟨[⟨1, "OpenAI", "Research Intern", none, 0⟩],
           [⟨1, "LinkedIn", "initial", 10⟩, ⟨1, "Email", "follow_up", 20⟩], []⟩ 0
          1).total_outreach_count ∧
      (((application_metrics_row
            ⟨[⟨1, "OpenAI", "Research Intern", none, 0⟩],
             [⟨1, "LinkedIn", "initial", 10⟩, ⟨1, "Email", "follow_up", 20⟩], []⟩ 0
            1).has_zero_outreach = true ∧
          (application_metrics_row
            ⟨[⟨1, "OpenAI", "Research Intern", none, 0⟩],
             [⟨1, "LinkedIn", "initial", 10⟩, ⟨1, "Email", "follow_up", 20⟩], []⟩ 0
            1).has_no_follow_up = false ∧
          (application_metrics_row
            ⟨[⟨1, "OpenAI", "Research Intern", none, 0⟩],
             [⟨1, "LinkedIn", "initial", 10⟩, ⟨1, "Email", "follow_up", 20⟩], []⟩ 0
            1).has_follow_up = false) ∨
        ((application_metrics_row
            ⟨[⟨1, "OpenAI", "Research Intern", none, 0⟩],
             [⟨1, "LinkedIn", "initial", 10⟩, ⟨1, "Email", "follow_up", 20⟩], []⟩ 0
            1).has_zero_outreach = false ∧
          (application_metrics_row
            ⟨[⟨1, "OpenAI", "Research Intern", none, 0⟩],
             [⟨1, "LinkedIn", "initial", 10⟩, ⟨1, "Email", "follow_up", 20⟩], []⟩ 0
            1).has_no_follow_up = true ∧
          (application_metrics_row
            ⟨[⟨1, "OpenAI", "Research Intern", none, 0⟩],
             [⟨1, "LinkedIn", "initial", 10⟩, ⟨1, "Email", "follow_up", 20⟩], []⟩ 0
            1).has_follow_up = false) ∨
        ((application_metrics_row
            ⟨[⟨1, "OpenAI", "Research Intern", none, 0⟩],
             [⟨1, "LinkedIn", "initial", 10⟩, ⟨1, "Email", "follow_up", 20⟩], []⟩ 0
            1).has_zero_outreach = false ∧
          (application_metrics_row
            ⟨[⟨1, "OpenAI", "Research Intern", none, 0⟩],
             [⟨1, "LinkedIn", "initial", 10⟩, ⟨1, "Email", "follow_up", 20⟩], []⟩ 0
            1).has_no_follow_up = false ∧
          (application_metrics_row
            ⟨[⟨1, "OpenAI", "Research Intern", none, 0⟩],
             [⟨1, "LinkedIn", "initial", 10⟩, ⟨1, "Email", "follow_up", 20⟩], []⟩ 0
            1).has_follow_up = true)) :=
  C10_exactly_one_flag
    ⟨[⟨1, "OpenAI", "Research Intern", none, 0⟩],
     [⟨1, "LinkedIn", "initial", 10⟩, ⟨1, "Email", "follow_up", 20⟩], []⟩ 0 _ (by decide)

theorem application_metrics_view_length_ne_zero (s : Store) (now : Int)
    (h : s.applications ≠ []) : (application_metrics_view s now).length ≠ 0 := by
  simp only [application_metrics_view, List.length_map]
  intro hlen
  exact h (List.length_eq_zero.mp hlen)

/-- C6: with zero applications the portfolio view returns the all-null/zero
row without computing any rate; with at least one application both divisors
it ever uses — the application total and the active-week count — are
nonzero, so no division by zero can occur. -/
theorem C6_empty_portfolio_all_null (s : Store) (now : Int) :
    (s.applications = [] →
      portfolio_metrics_view s now =
        { applications_total := 0
          applications_per_week := none
          follow_up_rate := none
          zero_outreach_rate := none
          idle_application_rate := none
          high_idle_portfolio := none
          low_follow_up_portfolio := none }) ∧
      (s.applications ≠ [] →
        (application_metrics_view s now).length ≠ 0 ∧
          ∀ mn mx : Int, 1 ≤ weeks_active mn mx) := by
  constructor
  · intro h
    simp [portfolio_metrics_view, application_metrics_view, h]
  · intro h
    exact ⟨application_metrics_view_length_ne_zero s now h, fun mn mx => le_max_left 1 _⟩

/-- C6 witness: the empty store yields the all-null row; a one-application
store has nonzero divisors. -/
theorem C6_witness :
    (portfolio_metrics_view ⟨[], [], []⟩ 0 =
        { applications_total := 0
          applications_per_week := none
          follow_up_rate := none
          zero_outreach_rate := none
          idle_application_rate := none
          high_idle_portfolio := none
          low_follow_up_portfolio := none }) ∧
      ((application_metrics_view ⟨[⟨1, "OpenAI", "Research Intern", none, 0⟩], [], []⟩
            0).length ≠ 0 ∧
        ∀ mn mx : Int, 1 ≤ weeks_active mn mx) :=
  ⟨(C6_empty_portfolio_all_null ⟨[], [], []⟩ 0).1 rfl,
    (C6_empty_portfolio_all_null ⟨[⟨1, "OpenAI", "Research Intern", none, 0⟩], [], []⟩ 0).2
      (by decide)⟩

theorem rate_bounds {α : Type} (p : α → Bool) (l : List α) (h : l.length ≠ 0) :
    0 ≤ ((l.countP p : ℚ) / (l.length : ℚ)) ∧ ((l.countP p : ℚ) / (l.length : ℚ)) ≤ 1 := by
  have hpos : (0 : ℚ) < (l.length : ℚ) := by exact_mod_cast Nat.pos_of_ne_zero h
  constructor
  · positivity
  · rw [div_le_one hpos]
    exact_mod_cast List.countP_le_length (p := p) (l := l)

theorem portfolio_rate_fields (s : Store) (now : Int)
    (hn : (application_metrics_view s now).length ≠ 0) :
    (portfolio_metrics_view s now).follow_up_rate =
        some (((application_metrics_view s now).countP (fun r => r.has_follow_up) : ℚ) /
          ((application_metrics_view s now).length : ℚ)) ∧
      (portfolio_metrics_view s now).zero_outreach_rate =
        some (((application_metrics_view s now).countP
            (fun r => r.total_outreach_count == 0) : ℚ) /
          ((application_metrics_view s now).length : ℚ)) ∧
      (portfolio_metrics_view s now).idle_application_rate =
        some (((application_metrics_view s now).countP (fun r => r.is_idle_application) : ℚ) /
          ((application_metrics_view s now).length : ℚ)) := by
  simp only [portfolio_metrics_view]
  rw [if_neg hn]
  exact ⟨rfl, rfl, rfl⟩

/-- C7: with at least one application, each of the three portfolio rates is
a present value lying in the closed interval [0, 1]. -/
theorem C7_rates_in_unit_interval (s : Store) (now : Int) (h : s.applications ≠ []) :
    ∃ f z i : ℚ,
      (portfolio_metrics_view s now).follow_up_rate = some f ∧
        (portfolio_metrics_view s now).zero_outreach_rate = some z ∧
        (portfolio_metrics_view s now).idle_application_rate = some i ∧
        0 ≤ f ∧ f ≤ 1 ∧ 0 ≤ z ∧ z ≤ 1 ∧ 0 ≤ i ∧ i ≤ 1 := by
  have hn := application_metrics_view_length_ne_zero s now h
  obtain ⟨h1, h2, h3⟩ := portfolio_rate_fields s now hn
  exact ⟨_, _, _, h1, h2, h3,
    (rate_bounds _ _ hn).1, (rate_bounds _ _ hn).2,
    (rate_bounds _ _ hn).1, (rate_bounds _ _ hn).2,
    (rate_bounds _ _ hn).1, (rate_bounds _ _ hn).2⟩

/-- C7 witness: a two-application store (one followed-up, one untouched)
evaluated eight days after the epoch. -/
theorem C7_witness :
    ∃ f z i : ℚ,
      (portfolio_metrics_view
            ⟨[⟨1, "OpenAI", "Research Intern", none, 0⟩, ⟨2, "Acme", "SWE", none, 0⟩],
             [⟨1, "Email", "follow_up", 10⟩], []⟩ 691200).follow_up_rate = some f ∧
        (portfolio_metrics_view
            ⟨[⟨1, "OpenAI", "Research Intern", none, 0⟩, ⟨2, "Acme", "SWE", none, 0⟩],
             [⟨1, "Email", "follow_up", 10⟩], []⟩ 691200).zero_outreach_rate = some z ∧
        (portfolio_metrics_view
            ⟨[⟨1, "OpenAI", "Research Intern", none, 0⟩, ⟨2, "Acme", "SWE", none, 0⟩],
             [⟨1, "Email", "follow_up", 10⟩], []⟩ 691200).idle_application_rate = some i ∧
        0 ≤ f ∧ f ≤ 1 ∧ 0 ≤ z ∧ z ≤ 1 ∧ 0 ≤ i ∧ i ≤ 1 :=
  C7_rates_in_unit_interval
    ⟨[⟨1, "OpenAI", "Research Intern", none, 0⟩, ⟨2, "Acme", "SWE", none, 0⟩],
     [⟨1, "Email", "follow_up", 10⟩], []⟩ 691200 (by decide)

/-- Stated from the spec's wording for the `applications_per_week` divisor:
`ceil(active-day-span / 7)`, with the active day span clamped to a minimum
of 1 day and the resulting week count clamped to a minimum of 1. Compare
`weeks_active`, the code's `(days + 6) // 7` floor-division formula. -/
def weeks_active_spec (mn mx : Int) : Int :=
  max 1 ⌈((max 1 ((mx - mn).fdiv 86400) : Int) : ℚ) / 7⌉

theorem fdiv_add_six_eq_ceil (d : Int) : (d + 6).fdiv 7 = ⌈(d : ℚ) / 7⌉ := by
  rw [Int.fdiv_eq_ediv _ (by norm_num)]
  have hmod := Int.ediv_add_emod (d + 6) 7
  have hlt : (d + 6) % 7 < 7 := Int.emod_lt_of_pos _ (by norm_num)
  have hge : (0 : Int) ≤ (d + 6) % 7 := Int.emod_nonneg _ (by norm_num)
  set q := (d + 6) / 7 with hq
  have hb1 : 7 * (q - 1) < d := by omega
  have hb2 : d ≤ 7 * q := by omega
  symm
  rw [Int.ceil_eq_iff]
  constructor
  · rw [lt_div_iff₀ (by norm_num : (0 : ℚ) < 7)]
    have h1 : (7 : ℚ) * ((q : ℚ) - 1) < (d : ℚ) := by exact_mod_cast hb1
    linarith
  · rw [div_le_iff₀ (by norm_num : (0 : ℚ) < 7)]
    have h2 : (d : ℚ) ≤ 7 * (q : ℚ) := by exact_mod_cast hb2
    linarith

theorem weeks_active_eq_spec (mn mx : Int) :
    weeks_active mn mx = weeks_active_spec mn mx := by
  simp only [weeks_active, weeks_active_spec, fdiv_add_six_eq_ceil]

/-- C8: with at least one application, `applications_per_week` is present
and equals the application total divided by the spec's divisor
`max 1 ⌈(max 1 day-span) / 7⌉`, where the day span runs from the earliest to
the latest `created_at`; that divisor is always ≥ 1. -/
theorem C8_applications_per_week (s : Store) (now : Int) (h : s.applications ≠ []) :
    ∃ mn mx : Int,
      listMin (s.applications.map (fun a => a.created_at)) = some mn ∧
        listMax (s.applications.map (fun a => a.created_at)) = some mx ∧
        (portfolio_metrics_view s now).applications_per_week =
          some ((s.applications.length : ℚ) / (weeks_active_spec mn mx : ℚ)) ∧
        1 ≤ weeks_active_spec mn mx := by
  have hn := application_metrics_view_length_ne_zero s now h
  have hcne : s.applications.map (fun a => a.created_at) ≠ [] := by
    intro hc
    exact h (List.map_eq_nil_iff.mp hc)
  obtain ⟨mn, hmn⟩ : ∃ mn, listMin (s.applications.map (fun a => a.created_at)) = some mn := by
    cases hm : listMin (s.applications.map (fun a => a.created_at)) with
    | none => exact absurd (listMin_eq_none_iff.mp hm) hcne
    | some m => exact ⟨m, rfl⟩
  obtain ⟨mx, hmx⟩ : ∃ mx, listMax (s.applications.map (fun a => a.created_at)) = some mx := by
    cases hm : listMax (s.applications.map (fun a => a.created_at)) with
    | none => exact absurd (listMax_eq_none_iff.mp hm) hcne
    | some m => exact ⟨m, rfl⟩
  refine ⟨mn, mx, hmn, hmx, ?_, ?_⟩
  · simp only [portfolio_metrics_view]
    rw [if_neg hn]
    show (match listMin (s.applications.map (fun a => a.created_at)),
        listMax (s.applications.map (fun a => a.created_at)) with
      | some mn, some mx =>
        some (((application_metrics_view s now).length : ℚ) / (weeks_active mn mx : ℚ))
      | _, _ => none) =
      some ((s.applications.length : ℚ) / (weeks_active_spec mn mx : ℚ))
    rw [hmn, hmx]
    show some (((application_metrics_view s now).length : ℚ) / (weeks_active mn mx : ℚ)) =
      some ((s.applications.length : ℚ) / (weeks_active_spec mn mx : ℚ))
    rw [weeks_active_eq_spec]
    simp [application_metrics_view]
  · rw [← weeks_active_eq_spec]
    exact le_max_left 1 _

/-- C8 witness: three applications spread over 16 days (day span 16, hence
`ceil(16/7) = 3` active weeks). -/
theorem C8_witness :
    ∃ mn mx : Int,
      listMin (([⟨1, "OpenAI", "Research Intern", none, 0⟩,
            ⟨2, "Acme", "SWE", none, 864000⟩,
            ⟨3, "Initech", "QA", none, 1382400⟩] : List Application).map
          (fun a => a.created_at)) = some mn ∧
        listMax (([⟨1, "OpenAI", "Research Intern", none, 0⟩,
            ⟨2, "Acme", "SWE", none, 864000⟩,
            ⟨3, "Initech", "QA", none, 1382400⟩] : List Application).map
          (fun a => a.created_at)) = some mx ∧
        (portfolio_metrics_view
            ⟨[⟨1, "OpenAI", "Research Intern", none, 0⟩,
              ⟨2, "Acme", "SWE", none, 864000⟩,
              ⟨3, "Initech", "QA", none, 1382400⟩], [], []⟩
            1382400).applications_per_week =
          some ((([⟨1, "OpenAI", "Research Intern", none, 0⟩,
              ⟨2, "Acme", "SWE", none, 864000⟩,
              ⟨3, "Initech", "QA", none, 1382400⟩] : List Application).length : ℚ) /
            (weeks_active_spec mn mx : ℚ)) ∧
        1 ≤ weeks_active_spec mn mx :=
  C8_applications_per_week
    ⟨[⟨1, "OpenAI", "Research Intern", none, 0⟩,
      ⟨2, "Acme", "SWE", none, 864000⟩,
      ⟨3, "Initech", "QA", none, 1382400⟩], [], []⟩ 1382400 (by decide)
